import Mathlib

/-!
Shallow embedding of the PlutoSDR source module of SDRPlusPlus
(src/source_modules/plutosdr_source/src/main.cpp, 731 lines).

The module wraps a libiio-driven PlutoSDR radio: `start` opens an iio
context, resolves the phy and data devices, steers the RX port, pushes the
stream configuration and spawns a worker thread; the worker sizes the DMA
buffers, enables the RX channels, creates the iio buffer and then loops:
refill, poll the underflow and overdrive status registers, convert the raw
fixed-point samples to floats and publish them through the handoff stream.

The embedding translates the control flow of `start`, `stop`, `select`,
`setBandwidth` and `worker` into pure Lean functions over an explicit
module state, an environment describing the outcomes of the hardware
calls, and a trace of hardware operations.  Machine integers are modelled
by Nat and Int; the float arithmetic of the converter is modelled by the
rationals, which is exact for every value the code can produce (int16 and
int8 inputs divided by the powers of two 2048 and 128 are exact in
binary32, and the sample rates of the enumerated table are small enough
that the float division by 20.0f in the worker is exact as well).
-/

namespace PlutoSDR

/-! ## Sample-rate table (constructor, main.cpp lines 40 to 44)

The constructor runs
  for (int sr = 2500000; sr <= 61440000; sr += 500000) samplerates.define(sr, ..., sr);
  samplerates.define(61440000, ..., 61440000.0);
The loop iterates k = 0, ..., 117 (2500000 + 500000 * 117 = 61000000 is the
last value not exceeding 61440000), and one extra entry 61440000 is then
appended.  -/

def samplerateTable : List ℕ :=
  ((List.range 118).map (fun k => 2500000 + 500000 * k)) ++ [61440000]

/-- Normalization of a persisted sample rate in select (main.cpp lines
269 to 276): if the value is a key of the table it is kept (and srId set
to its index), otherwise srId is set to 0 and the sample rate is replaced
by the table entry at index 0. -/
def normalizeSamplerate (sr : ℕ) : ℕ :=
  if sr ∈ samplerateTable then sr else samplerateTable.headD 0

theorem mem_samplerateTable (x : ℕ) :
    x ∈ samplerateTable ↔
      (∃ k, k < 118 ∧ x = 2500000 + 500000 * k) ∨ x = 61440000 := by
  simp only [samplerateTable, List.mem_append, List.mem_map, List.mem_range,
    List.mem_singleton]
  constructor
  · rintro (⟨k, hk, rfl⟩ | rfl)
    · exact Or.inl ⟨k, hk, rfl⟩
    · exact Or.inr rfl
  · rintro (⟨k, hk, rfl⟩ | rfl)
    · exact Or.inl ⟨k, hk, rfl⟩
    · exact Or.inr rfl

theorem samplerateTable_lb {sr : ℕ} (h : sr ∈ samplerateTable) : 2500000 ≤ sr := by
  rcases (mem_samplerateTable sr).1 h with ⟨k, _, rfl⟩ | rfl <;> omega

/-! ## Gain load path (select, main.cpp lines 251 to 254)

    gain = config.conf["devices"][devDesc]["gain"];
    gain = std::clamp<int>(gain, -1.0f, 73.0f);

std::clamp is instantiated at int: the float gain and the float bounds are
converted to int (truncation toward zero), the clamp is computed on ints,
and the int result is assigned back to the float field.  -/

/-- Truncation toward zero, the C++ float-to-int conversion. -/
def cppTrunc (q : ℚ) : ℤ := if 0 ≤ q then ⌊q⌋ else ⌈q⌉

/-- std::clamp on integers: v below lo gives lo, v above hi gives hi. -/
def clampInt (v lo hi : ℤ) : ℤ := if v < lo then lo else if hi < v then hi else v

/-- The gain value stored by select when loading the persisted gain:
clamp is instantiated at int, so the float input is truncated toward zero
before the clamp to the integer interval from -1 to 73; the integer result
is stored back into the float field. -/
def loadGain (input : ℚ) : ℚ := ((clampInt (cppTrunc input) (-1) 73 : ℤ) : ℚ)

/-! ## Bandwidth policy (setBandwidth, main.cpp lines 555 to 562)

    if (bw > 0) { iio_channel_attr_write_longlong(rxChan, "rf_bandwidth", bw); }
    else { iio_channel_attr_write_longlong(rxChan, "rf_bandwidth", std::min<int>(samplerate, 52000000)); }

The same member function is invoked at session start (line 366) and on a
live bandwidth change from the menu (line 446).  -/

/-- Value written to the rf_bandwidth attribute by setBandwidth. -/
def setBandwidth (samplerate : ℕ) (bw : ℤ) : ℤ :=
  if 0 < bw then bw else min (samplerate : ℤ) 52000000

/-- Effect of one setBandwidth call on the rf_bandwidth hardware
attribute: the previous attribute value is overwritten. -/
def applyBandwidth (samplerate : ℕ) (bw : ℤ) (_attr : ℤ) : ℤ :=
  setBandwidth samplerate bw

/-! ## Worker buffer sizing (worker, main.cpp lines 566 to 572)

    #define MAX_BUFFER_PLUTO 64000000 / 2
    size_t buffersize = ((size_t)(_this->samplerate / 20.0f));
    blockSize = std::min<size_t>(STREAM_BUFFER_SIZE, buffersize);
    nbkernel = std::min<int>(8, MAX_BUFFER_PLUTO / blockSize);

STREAM_BUFFER_SIZE is the host's maximum transfer size (a constant of the
host SDR++ core, outside this module); it is kept as a parameter
maxTransfer.  Every sample rate in the enumerated table is divisible by 20
and small enough that samplerate / 20.0f is computed exactly in binary32,
so Nat division models the cast.  -/

def MAX_BUFFER_PLUTO : ℕ := 64000000 / 2

def workerBuffersize (samplerate : ℕ) : ℕ := samplerate / 20

def workerBlockSize (maxTransfer samplerate : ℕ) : ℕ :=
  min maxTransfer (workerBuffersize samplerate)

def workerNbKernel (maxTransfer samplerate : ℕ) : ℕ :=
  min 8 (MAX_BUFFER_PLUTO / workerBlockSize maxTransfer samplerate)

/-! ## Hardware operations and module state -/

/-- One observable hardware or host operation issued by the module.  The
Bool on the register operations distinguishes the data device (true) from
the phy device (false). -/
inductive HwOp where
  | createContext (uri : String)
  | destroyContext
  | findDevice (name : String)
  | findChannel (name : String)
  | debugAttrRead (name : String)
  | debugAttrWrite (name : String) (v : ℤ)
  | regRead (onDataDev : Bool) (addr : ℕ)
  | regWrite (onDataDev : Bool) (addr : ℕ) (val : ℕ)
  | chanAttrWrite (name : String)
  | enableChannel (name : String)
  | disableChannel (name : String)
  | setKernelBuffersCount (n : ℕ)
  | createBuffer (size : ℕ)
  | destroyBuffer
  | spawnThread
  deriving DecidableEq

/-- True exactly on register writes; used to state that a code path never
writes any register other than an intended one. -/
def HwOp.isRegWrite : HwOp → Bool
  | .regWrite _ _ _ => true
  | _ => false

/-- True exactly on register reads. -/
def HwOp.isRegRead : HwOp → Bool
  | .regRead _ _ => true
  | _ => false

/-- The fields of PlutoSDRSourceModule that the embedded operations read
or write, together with the resource state they control (context held,
worker thread live, RX channels enabled, iio buffer created). -/
structure ModuleState where
  running : Bool
  ctxHeld : Bool
  threadSpawned : Bool
  chanIEnabled : Bool
  chanQEnabled : Bool
  bufCreated : Bool
  devDesc : String
  uri : String
  samplerate : ℕ
  bandwidth : ℤ
  gain : ℚ
  rfId : ℕ
  iqmodeId : ℕ
  gmId : ℕ
  deriving DecidableEq

/-- Outcome of the hardware calls that the code can observe: which
resolutions succeed, the values the readable registers and debug
attributes hold, and the host's maximum transfer size. -/
structure HwEnv where
  ctxOk : Bool
  phyOk : Bool
  devOk : Bool
  mode : ℤ
  reg3 : ℕ
  reg88 : ℕ
  rxChanOk : Bool
  bufOk : Bool
  maxTransfer : ℕ
  deriving DecidableEq

/-! ## start (main.cpp lines 299 to 375)

Control flow of start: return immediately when already running or when no
device is selected; open the context (failure: plain return); resolve
"ad9361-phy" and "cf-ad9361-lpc" (failure: destroy the context and
return); read the 2rx-2tx mode, steer the RX port (in single-RX mode via
a read-modify-write of phy register 0x3 and a debug attribute write),
resolve the channels, push the LO, frequency, sample rate, gain, gain
mode and bandwidth attributes, set running = true and spawn the worker
thread.  -/

def start (env : HwEnv) (s : ModuleState) : ModuleState × List HwOp :=
  if s.running then (s, [])
  else if s.devDesc = "" ∨ s.uri = "" then (s, [])
  else if env.ctxOk = false then (s, [HwOp.createContext s.uri])
  else
    let sOpen : ModuleState := { s with ctxHeld := true }
    if env.phyOk = false then
      ({ sOpen with ctxHeld := false },
        [HwOp.createContext s.uri, HwOp.findDevice "ad9361-phy", HwOp.destroyContext])
    else if env.devOk = false then
      ({ sOpen with ctxHeld := false },
        [HwOp.createContext s.uri, HwOp.findDevice "ad9361-phy",
         HwOp.findDevice "cf-ad9361-lpc", HwOp.destroyContext])
    else
      let portOps : List HwOp :=
        if env.mode = 1 then
          [HwOp.findChannel (if s.rfId = 0 then "voltage0" else "voltage1")]
        else
          [HwOp.regRead false 0x3,
           HwOp.regWrite false 0x3 ((env.reg3 &&& 0x3F) ||| ((s.rfId + 1) <<< 6)),
           HwOp.debugAttrWrite "adi,1rx-1tx-mode-use-rx-num" ((s.rfId : ℤ) + 1),
           HwOp.findChannel "voltage0"]
      let cfgOps : List HwOp :=
        [HwOp.findChannel "altvoltage1", HwOp.chanAttrWrite "powerdown",
         HwOp.findChannel "altvoltage0", HwOp.chanAttrWrite "powerdown",
         HwOp.chanAttrWrite "rf_port_select",
         HwOp.chanAttrWrite "frequency",
         HwOp.chanAttrWrite "sampling_frequency",
         HwOp.chanAttrWrite "hardwaregain",
         HwOp.chanAttrWrite "gain_control_mode",
         HwOp.chanAttrWrite "rf_bandwidth"]
      ({ sOpen with running := true, threadSpawned := true },
        [HwOp.createContext s.uri, HwOp.findDevice "ad9361-phy",
         HwOp.findDevice "cf-ad9361-lpc",
         HwOp.debugAttrRead "adi,2rx-2tx-mode-enable"]
          ++ portOps ++ cfgOps ++ [HwOp.spawnThread])

/-! ## Worker setup (worker, main.cpp lines 564 to 618)

The worker runs on the spawned thread: it computes the buffer sizes,
resolves the data-device RX channels (voltage2/voltage3 instead of
voltage0/voltage1 when rfId = 1 in dual-RX mode), returns early when a
channel is missing, enables the I channel and enables or disables the Q
channel according to iqmodeId, sets the kernel buffer count, creates the
iio buffer and returns early (with the channels still enabled) when the
creation fails, then resets the underflow register and enters the loop.  -/

def workerSetup (env : HwEnv) (s : ModuleState) : ModuleState × List HwOp :=
  let blockSize := workerBlockSize env.maxTransfer s.samplerate
  let nbkernel := workerNbKernel env.maxTransfer s.samplerate
  let findOps : List HwOp :=
    [HwOp.findChannel "voltage0", HwOp.findChannel "voltage1",
     HwOp.debugAttrRead "adi,2rx-2tx-mode-enable"]
      ++ (if s.rfId = 1 ∧ env.mode = 1 then
            [HwOp.findChannel "voltage2", HwOp.findChannel "voltage3"]
          else [])
  if env.rxChanOk = false then (s, findOps)
  else
    let sEn : ModuleState :=
      if s.iqmodeId = 0 then { s with chanIEnabled := true, chanQEnabled := true }
      else { s with chanIEnabled := true, chanQEnabled := false }
    let enableOps : List HwOp :=
      if s.iqmodeId = 0 then
        [HwOp.enableChannel "rx0_i", HwOp.enableChannel "rx0_q"]
      else
        [HwOp.enableChannel "rx0_i", HwOp.disableChannel "rx0_q"]
    let preOps := findOps ++ enableOps
      ++ [HwOp.setKernelBuffersCount nbkernel, HwOp.createBuffer blockSize]
    if env.bufOk = false then (sEn, preOps)
    else
      ({ sEn with bufCreated := true },
        preOps ++ [HwOp.regRead true 0x80000088,
                   HwOp.regWrite true 0x80000088 env.reg88,
                   HwOp.regRead true 0xC1200000])

/-- start followed, when it spawned the worker thread, by the worker's
setup phase up to the top of the receive loop. -/
def startAndSetup (env : HwEnv) (s : ModuleState) : ModuleState × List HwOp :=
  let r := start env s
  if r.1.running && !s.running then
    let r2 := workerSetup env r.1
    (r2.1, r.2 ++ r2.2)
  else r

/-! ## Status polling (worker loop, main.cpp lines 624 to 639)

    iio_device_reg_read(_this->dev, 0x80000088, &val);
    if (val & 4) { ... underflow=1; iio_device_reg_write(_this->dev, 0x80000088, val); }
    else underflow=0;
    if ((_this->rfId == 1) && (Mode == 1)) iio_device_reg_read(_this->phy, 0x0000005F, &val);
    else iio_device_reg_read(_this->phy, 0x0000005E, &val);
    _this->overgain = val & 1;
-/

/-- One cycle's status poll: given the current contents of the data
device's underflow register 0x80000088 and of the phy registers 0x5E and
0x5F, return the underflow flag, the overgain flag, and the register
operations issued. -/
def pollStatus (rfId : ℕ) (mode : ℤ) (reg88 reg5E reg5F : ℕ) : ℕ × ℕ × List HwOp :=
  let uf : ℕ × List HwOp :=
    if reg88 &&& 4 ≠ 0 then
      (1, [HwOp.regRead true 0x80000088, HwOp.regWrite true 0x80000088 reg88])
    else
      (0, [HwOp.regRead true 0x80000088])
  let ov : ℕ × ℕ :=
    if rfId = 1 ∧ mode = 1 then (0x5F, reg5F) else (0x5E, reg5E)
  (uf.1, ov.2 &&& 1, uf.2 ++ [HwOp.regRead false ov.1])

/-! ## Sample conversion (worker loop, main.cpp lines 640 to 654)

    volk_16i_s32f_convert_32f((float*)writeBuf, buf, 2048.0f, blockSize * 2);
    volk_8i_s32f_convert_32f((float*)writeBuf, buf, 128.0f, blockSize * 2);
-/

/-- Modelled from the spec: the volk fixed-point-to-float kernels
volk_16i_s32f_convert_32f and volk_8i_s32f_convert_32f (an external
library, absent from src) scale each input element by a fixed divisor,
the scalar argument: output i equals input i divided by the scalar. -/
def volkConvert (input : List ℤ) (scalar : ℚ) : List ℚ :=
  List.map (fun x : ℤ => (x : ℚ) / scalar) input

/-- Grouping of an interleaved float stream into complex samples: the
write buffer is a dsp complex buffer, so consecutive float pairs form the
I and Q parts of one complex sample. -/
def toComplexPairs : List ℚ → List (ℚ × ℚ)
  | a :: b :: rest => (a, b) :: toComplexPairs rest
  | _ => []

/-- Modelled from the spec: in narrow mode the Q channel is disabled at
channel-enable time and the disabled channel reports zero by hardware
convention, so the raw narrow-mode buffer interleaves each 8-bit I sample
with a zero Q sample. -/
def narrowRawBuffer (isamples : List ℤ) : List ℤ :=
  isamples.flatMap (fun i => [i, 0])

/-! ## Worker receive loop (main.cpp lines 621 to 655)

    while (true) {
        ssize_t BufferRead = iio_buffer_refill(rxbuf);
        ...status poll...
        if (_this->iqmodeId == 0) {
            int16_t* buf = (int16_t*)iio_buffer_start(rxbuf);
            if (buf) {
                volk_16i_s32f_convert_32f((float*)writeBuf, buf, 2048.0f, blockSize * 2);
                if (!_this->stream.swap(blockSize)) { break; };
            }
        } else { ...same with int8 and 128.0f... }
    }
-/

/-- Everything one loop cycle can observe from outside the module: the
refill return value, the status register contents, the raw buffer
contents in both element widths, whether iio_buffer_start returned a
non-null pointer, and whether the handoff swap succeeded. -/
structure CycleEnv where
  bufferRead : ℤ
  reg88 : ℕ
  reg5E : ℕ
  reg5F : ℕ
  raw16 : List ℤ
  raw8 : List ℤ
  bufNonNull : Bool
  swapOk : Bool
  deriving DecidableEq

/-- Outcome of one loop cycle: the status flags and register operations,
the floats written into the handoff write slot, the count passed to swap
when swap was called, and whether the cycle breaks out of the loop. -/
structure CycleResult where
  underflow : ℕ
  overgain : ℕ
  statusOps : List HwOp
  written : List ℚ
  published : Option ℕ
  exitsLoop : Bool
  deriving DecidableEq

/-- One cycle of the worker receive loop.  The running parameter is the
module's stop flag, in scope for the worker thread; the loop runs
while (true) and its body never reads the flag, which the translation
makes visible by taking the parameter without using it. -/
def workerCycle (rfId iqmodeId : ℕ) (mode : ℤ) (blockSize : ℕ) (running : Bool)
    (c : CycleEnv) : CycleResult :=
  let st := pollStatus rfId mode c.reg88 c.reg5E c.reg5F
  if iqmodeId = 0 then
    if c.bufNonNull then
      { underflow := st.1, overgain := st.2.1, statusOps := st.2.2
        written := volkConvert (c.raw16.take (blockSize * 2)) 2048
        published := some blockSize
        exitsLoop := !c.swapOk }
    else
      { underflow := st.1, overgain := st.2.1, statusOps := st.2.2
        written := [], published := none, exitsLoop := false }
  else
    if c.bufNonNull then
      { underflow := st.1, overgain := st.2.1, statusOps := st.2.2
        written := volkConvert (c.raw8.take (blockSize * 2)) 128
        published := some blockSize
        exitsLoop := !c.swapOk }
    else
      { underflow := st.1, overgain := st.2.1, statusOps := st.2.2
        written := [], published := none, exitsLoop := false }

/-- Modelled from the spec: the handoff stream's swap blocks until a new
slot is available and returns failure immediately if the consumer side
has been torn down or the writer has been stopped; stopWriter, called by
stop, unblocks a producer blocked in swap with a failure result. -/
def streamSwapResult (writeStop consumerAlive : Bool) : Bool :=
  !writeStop && consumerAlive

/-! ## Concrete states and environments used by witnesses -/

/-- An idle module state with a selected device, the defaults of select
(sample rate 4 MHz, automatic bandwidth, automatic gain), and no resource
held. -/
def idleState : ModuleState :=
  { running := false, ctxHeld := false, threadSpawned := false
    chanIEnabled := false, chanQEnabled := false, bufCreated := false
    devDesc := "PlutoSDR", uri := "usb:1.2.5", samplerate := 4000000
    bandwidth := 0, gain := -1, rfId := 0, iqmodeId := 0, gmId := 0 }

/-- A running module state, as left by a successful start. -/
def runningState : ModuleState :=
  { idleState with running := true, ctxHeld := true, threadSpawned := true }

/-- An environment in which every hardware call succeeds, in dual-RX
topology, with the host maximum transfer size of the reference host. -/
def goodEnv : HwEnv :=
  { ctxOk := true, phyOk := true, devOk := true, mode := 1, reg3 := 0
    reg88 := 0, rxChanOk := true, bufOk := true, maxTransfer := 1000000 }

/-- An environment in which everything succeeds except the creation of
the iio DMA buffer in the worker. -/
def bufFailEnv : HwEnv := { goodEnv with bufOk := false }

/-- A cycle environment in which the refill returned, the buffer pointer
is non-null and the handoff swap succeeded. -/
def quietCycleEnv : CycleEnv :=
  { bufferRead := 400000, reg88 := 0, reg5E := 0, reg5F := 0
    raw16 := [], raw8 := [], bufNonNull := true, swapOk := true }

/-! ## Theorems -/

/-- C10: calling start while the module is already running returns
immediately: the resulting state is the prior state, every field
unchanged, and no hardware operation at all is issued, so no context is
opened, no attribute is written and no second worker thread is spawned
(main.cpp line 301). -/
theorem start_running_noop (env : HwEnv) (s : ModuleState) (h : s.running = true) :
    start env s = (s, []) := by
  simp [start, h]

theorem start_running_noop_witness :
    runningState.running = true ∧ start goodEnv runningState = (runningState, []) :=
  ⟨by decide, start_running_noop goodEnv runningState (by decide)⟩

/-- C7: setBandwidth writes the requested bandwidth to the rf_bandwidth
attribute when it is positive, writes the minimum of the sample rate and
52000000 when it is zero (automatic mode), and the write is idempotent:
applying the same call twice leaves the attribute exactly as one call
does.  The same member function runs at session start (main.cpp line 366)
and on live reconfiguration (line 446), so both sites have this same
behavior (main.cpp lines 555 to 562). -/
theorem setBandwidth_spec (sr : ℕ) (bw attr : ℤ) :
    (0 < bw → setBandwidth sr bw = bw) ∧
    (bw = 0 → setBandwidth sr bw = min (sr : ℤ) 52000000) ∧
    applyBandwidth sr bw (applyBandwidth sr bw attr) = applyBandwidth sr bw attr := by
  refine ⟨fun h => ?_, fun h => ?_, rfl⟩
  · simp [setBandwidth, h]
  · simp [setBandwidth, h]

theorem setBandwidth_spec_witness :
    setBandwidth 4000000 5000000 = 5000000 ∧ setBandwidth 4000000 0 = 4000000 := by
  constructor
  · exact (setBandwidth_spec 4000000 5000000 0).1 (by norm_num)
  · have h := (setBandwidth_spec 4000000 0 0).2.1 rfl
    rw [h]; decide

/-- C4: for every sample rate of the enumerated table, the worker's
per-cycle buffer sample count equals max 1 (samplerate / 20) clamped to
the host's maximum transfer size (the max is vacuous because every table
rate is at least 2500000, so samplerate / 20 is at least 125000), the
kernel buffer count equals min 8 (32000000 / blockSize), and the product
of the kernel buffer count and the block size never exceeds the DMA
budget of 32000000 samples (main.cpp lines 566 to 572). -/
theorem buffer_sizing_spec (sr maxT : ℕ) (hsr : sr ∈ samplerateTable) :
    workerBlockSize maxT sr = min maxT (max 1 (sr / 20)) ∧
    workerNbKernel maxT sr = min 8 (32000000 / workerBlockSize maxT sr) ∧
    workerNbKernel maxT sr * workerBlockSize maxT sr ≤ 32000000 := by
  have hlb : 2500000 ≤ sr := samplerateTable_lb hsr
  have hdiv : 1 ≤ sr / 20 := by omega
  refine ⟨?_, rfl, ?_⟩
  · have : max 1 (sr / 20) = sr / 20 := by omega
    rw [this]; rfl
  · calc workerNbKernel maxT sr * workerBlockSize maxT sr
        ≤ (32000000 / workerBlockSize maxT sr) * workerBlockSize maxT sr := by
          exact Nat.mul_le_mul_right _ (min_le_right _ _)
      _ ≤ 32000000 := Nat.div_mul_le_self _ _

theorem buffer_sizing_spec_witness :
    (4000000 ∈ samplerateTable) ∧
    workerBlockSize 1000000 4000000 = min 1000000 (max 1 (4000000 / 20)) ∧
    workerNbKernel 1000000 4000000 * workerBlockSize 1000000 4000000 ≤ 32000000 := by
  have hm : (4000000 : ℕ) ∈ samplerateTable := by decide
  have h := buffer_sizing_spec 4000000 1000000 hm
  exact ⟨hm, h.1, h.2.2⟩

/-- C9: in every cycle's status poll, the register reads issued are
exactly one read of the data device's underflow register 0x80000088 and
one read of the phy overdrive register, whose offset is 0x5F exactly when
port index 1 is active in dual-RX topology and 0x5E in all other
combinations; the underflow flag is 1 exactly when bit 2 of the read
value is set; the only register write ever issued is the write-back of
the read value to 0x80000088, issued exactly when that bit is set (so the
overdrive register is never written); and the overgain flag is the low
bit of the overdrive register that was read (main.cpp lines 624 to
639). -/
theorem pollStatus_spec (rfId : ℕ) (mode : ℤ) (r88 r5E r5F : ℕ) :
    (pollStatus rfId mode r88 r5E r5F).1 = (if r88 &&& 4 ≠ 0 then 1 else 0) ∧
    (pollStatus rfId mode r88 r5E r5F).2.1
      = (if rfId = 1 ∧ mode = 1 then r5F else r5E) &&& 1 ∧
    ((pollStatus rfId mode r88 r5E r5F).2.2.filter (fun o => o.isRegRead))
      = [HwOp.regRead true 0x80000088,
         HwOp.regRead false (if rfId = 1 ∧ mode = 1 then 0x5F else 0x5E)] ∧
    ((pollStatus rfId mode r88 r5E r5F).2.2.filter (fun o => o.isRegWrite))
      = (if r88 &&& 4 ≠ 0 then [HwOp.regWrite true 0x80000088 r88] else []) := by
  by_cases h4 : r88 &&& 4 ≠ 0 <;>
    by_cases hp : rfId = 1 ∧ mode = 1 <;>
      simp [pollStatus, h4, hp, List.filter, HwOp.isRegRead, HwOp.isRegWrite]

/-- C5 counterexample: the gain value 36.5 lies inside the range from -1
to 73, yet loading it through select does not store it unchanged: the
clamp is instantiated at int (main.cpp line 253), so the value is
truncated to 36 before being stored. -/
theorem gain_clamp_counterexample :
    ((-1 : ℚ) ≤ 73 / 2 ∧ (73 / 2 : ℚ) ≤ 73) ∧ loadGain (73 / 2) ≠ 73 / 2 := by
  constructor
  · constructor <;> norm_num
  · have ht : cppTrunc (73 / 2) = 36 := by
      have h0 : (0 : ℚ) ≤ 73 / 2 := by norm_num
      simp only [cppTrunc, if_pos h0]
      rw [show (36 : ℤ) = ((36 : ℤ) : ℤ) from rfl, Int.floor_eq_iff] <;> norm_num
    simp only [loadGain, ht, clampInt]
    norm_num

/-- C5 as amended: the gain stored by select equals the persisted input
truncated toward zero to an integer and then clamped to the integer range
from -1 to 73; consequently the stored value always lies in the range, an
integer input inside the range is stored unchanged, an input above 73
stores 73 and an input below -1 stores -1 (main.cpp lines 251 to 254). -/
theorem gain_clamp_spec (q : ℚ) :
    loadGain q = ((clampInt (cppTrunc q) (-1) 73 : ℤ) : ℚ) ∧
    ((-1 : ℚ) ≤ loadGain q ∧ loadGain q ≤ 73) ∧
    (∀ z : ℤ, q = (z : ℚ) → -1 ≤ z → z ≤ 73 → loadGain q = q) ∧
    (73 < q → loadGain q = 73) ∧
    (q < -1 → loadGain q = -1) := by
  refine ⟨rfl, ?_, ?_, ?_, ?_⟩
  · unfold loadGain clampInt
    split_ifs with h1 h2
    · norm_num
    · norm_num
    · push_neg at h1 h2
      constructor
      · exact_mod_cast h1
      · exact_mod_cast h2
  · rintro z rfl hlo hhi
    have ht : cppTrunc (z : ℚ) = z := by
      unfold cppTrunc
      split_ifs <;> simp
    unfold loadGain
    rw [ht]
    unfold clampInt
    split_ifs with h1 h2
    · omega
    · omega
    · rfl
  · intro h
    have ht : 73 ≤ cppTrunc q := by
      have h0 : (0 : ℚ) ≤ q := by linarith
      unfold cppTrunc
      rw [if_pos h0]
      exact Int.le_floor.2 (by exact_mod_cast h.le)
    unfold loadGain clampInt
    split_ifs with h1 h2
    · omega
    · norm_num
    · have : cppTrunc q = 73 := by omega
      rw [this]; norm_num
  · intro h
    have ht : cppTrunc q ≤ -1 := by
      have h0 : ¬ (0 : ℚ) ≤ q := by linarith
      unfold cppTrunc
      rw [if_neg h0]
      exact Int.ceil_le.2 (by exact_mod_cast h.le)
    unfold loadGain clampInt
    split_ifs with h1 h2
    · norm_num
    · omega
    · have : cppTrunc q = -1 := by omega
      rw [this]; norm_num

theorem gain_clamp_spec_witness :
    loadGain 36 = 36 ∧ loadGain 100 = 73 ∧ loadGain (-5) = -1 := by
  refine ⟨?_, ?_, ?_⟩
  · exact (gain_clamp_spec 36).2.2.1 36 (by norm_num) (by norm_num) (by norm_num)
  · exact (gain_clamp_spec 100).2.2.2.1 (by norm_num)
  · exact (gain_clamp_spec (-5)).2.2.2.2 (by norm_num)

/-- C6 counterexample: the input 61440000 is accepted by the
normalization (it is a key of the enumerated table, added by the extra
define on main.cpp line 44) and stored unchanged, yet it is not a member
of the claimed arithmetic progression from 2500000 in steps of 500000:
the progression reaches 61000000 and then 61500000, never 61440000. -/
theorem samplerate_set_counterexample :
    normalizeSamplerate 61440000 = 61440000 ∧
    ∀ k : ℕ, 2500000 + 500000 * k ≠ 61440000 := by
  constructor
  · decide
  · intro k; omega

/-- C6 as amended: the enumerated table consists of the arithmetic
progression from 2500000 to 61000000 in steps of 500000 together with the
one extra entry 61440000; every normalized sample rate is a member of
that table, and an input that is not in the table snaps to the table
entry at index 0, which is 2500000, rather than being rejected (main.cpp
lines 40 to 44 and 269 to 276). -/
theorem normalizeSamplerate_spec (sr : ℕ) :
    normalizeSamplerate sr ∈ samplerateTable ∧
    (sr ∉ samplerateTable → normalizeSamplerate sr = 2500000) ∧
    ((∃ k, k < 118 ∧ normalizeSamplerate sr = 2500000 + 500000 * k) ∨
      normalizeSamplerate sr = 61440000) := by
  have hhead : samplerateTable.headD 0 = 2500000 := by decide
  have hmem0 : (2500000 : ℕ) ∈ samplerateTable := by decide
  by_cases h : sr ∈ samplerateTable
  · refine ⟨?_, ?_, ?_⟩
    · simpa [normalizeSamplerate, h] using h
    · intro hc; exact absurd h hc
    · have h2 : normalizeSamplerate sr = sr := by simp [normalizeSamplerate, h]
      rw [h2]
      rcases (mem_samplerateTable sr).1 h with ⟨k, hk, rfl⟩ | rfl
      · exact Or.inl ⟨k, hk, rfl⟩
      · exact Or.inr rfl
  · have h2 : normalizeSamplerate sr = 2500000 := by
      unfold normalizeSamplerate
      rw [if_neg h]
      exact hhead
    refine ⟨?_, fun _ => h2, ?_⟩
    · rw [h2]; exact hmem0
    · exact Or.inl ⟨0, by omega, by rw [h2]⟩

theorem normalizeSamplerate_spec_witness :
    (7 : ℕ) ∉ samplerateTable ∧ normalizeSamplerate 7 = 2500000 :=
  ⟨by decide, (normalizeSamplerate_spec 7).2.1 (by decide)⟩

/-- C8: the converter is a pure per-element rescale: in wide mode each
signed 16-bit input is divided by 2048 (so the inputs 2048 and -2048
yield 1 and -1), in narrow mode each signed 8-bit input is divided by
128, and with the narrow-mode raw buffer interleaving each I sample with
the zero reported by the disabled Q channel, every published complex
sample has I equal to the raw I sample divided by 128 and Q equal to 0
(main.cpp lines 640 to 654). -/
theorem converter_pure_rescale (israw : List ℤ) :
    volkConvert [2048, -2048] 2048 = [1, -1] ∧
    (∀ (x : ℤ) (l : List ℤ),
      volkConvert (x :: l) 2048 = ((x : ℚ) / 2048) :: volkConvert l 2048) ∧
    toComplexPairs (volkConvert (narrowRawBuffer israw) 128)
      = israw.map (fun i => ((i : ℚ) / 128, 0)) := by
  refine ⟨by norm_num [volkConvert], fun x l => rfl, ?_⟩
  induction israw with
  | nil => rfl
  | cons i rest ih =>
      simp only [narrowRawBuffer, List.flatMap_cons, List.cons_append,
        List.nil_append, volkConvert, List.map_cons, List.map] at *
      simp only [toComplexPairs, List.map_cons]
      rw [show ((0 : ℤ) : ℚ) / 128 = 0 by norm_num]
      exact congrArg _ ih

/-- C1 counterexample: a cycle in which the stop flag has been cleared
(running = false) but the handoff swap succeeds does not exit the
receive loop, and the cycle outcome is identical to the one with the
flag still set: the loop runs while (true) and its body never reads the
flag, so there is no re-check of the stop flag at the top of the cycle
before the refill (main.cpp lines 621 to 655). -/
theorem stop_flag_not_checked_counterexample :
    (workerCycle 0 0 1 200000 false quietCycleEnv).exitsLoop = false ∧
    workerCycle 0 0 1 200000 false quietCycleEnv
      = workerCycle 0 0 1 200000 true quietCycleEnv := by
  constructor <;> decide

/-- C1 as amended: the worker never consults the stop flag: the cycle
outcome is the same for either flag value, and the loop exits a cycle
exactly when the buffer pointer is non-null and the handoff swap fails.
Termination after stop still happens within one cycle (one refill plus
one swap), but through the handoff buffer alone: stop stops the stream
writer, after which every swap returns failure, so the first cycle whose
refill returns with a non-null buffer breaks out of the loop (main.cpp
lines 377 to 394 and 621 to 655). -/
theorem worker_terminates_via_swap (rfId iq : ℕ) (mode : ℤ) (bs : ℕ)
    (r r' : Bool) (c : CycleEnv) :
    workerCycle rfId iq mode bs r c = workerCycle rfId iq mode bs r' c ∧
    (workerCycle rfId iq mode bs r c).exitsLoop = (c.bufNonNull && !c.swapOk) ∧
    (∀ alive : Bool,
      (workerCycle rfId iq mode bs r
        { c with swapOk := streamSwapResult true alive }).exitsLoop = c.bufNonNull) := by
  refine ⟨rfl, ?_, ?_⟩
  · unfold workerCycle
    by_cases hiq : iq = 0 <;> by_cases hb : c.bufNonNull <;>
      simp [hiq, hb]
  · intro alive
    unfold workerCycle streamSwapResult
    by_cases hiq : iq = 0 <;> by_cases hb : c.bufNonNull <;>
      simp [hiq, hb]

/-- C3: whenever a cycle publishes (the buffer pointer is non-null), the
count handed to swap is exactly the block size min maxTransfer
(samplerate / 20); the cycle outcome does not depend on the byte count
the refill call reported (the BufferRead value is unused: the conversion
length argument blockSize * 2 is hardcoded and the commented-out
alternative using BufferRead is dead); and the converter output divides
into exactly inputLength / 2 complex pairs for every input, performing a
pure rescale (main.cpp lines 640 to 654). -/
theorem worker_publishes_blockSize (sr maxT rfId iq : ℕ) (mode : ℤ) (r : Bool)
    (c : CycleEnv) (hsr : sr ∈ samplerateTable) (hbuf : c.bufNonNull = true) :
    (workerCycle rfId iq mode (workerBlockSize maxT sr) r c).published
      = some (min maxT (sr / 20)) ∧
    (∀ n : ℤ,
      workerCycle rfId iq mode (workerBlockSize maxT sr) r { c with bufferRead := n }
        = workerCycle rfId iq mode (workerBlockSize maxT sr) r c) ∧
    (∀ (l : List ℤ) (scalar : ℚ),
      (toComplexPairs (volkConvert l scalar)).length = l.length / 2) := by
  refine ⟨?_, ?_, ?_⟩
  · unfold workerCycle
    by_cases hiq : iq = 0 <;> simp [hiq, hbuf, workerBlockSize, workerBuffersize]
  · intro n
    unfold workerCycle
    rfl
  · intro l scalar
    have hlen : ∀ m : List ℚ, (toComplexPairs m).length = m.length / 2 := by
      intro m
      induction m using toComplexPairs.induct with
      | case1 a b rest ih =>
          simp only [toComplexPairs, List.length_cons, ih]
          omega
      | case2 m h =>
          rcases m with _ | ⟨a, _ | ⟨b, rest⟩⟩
          · simp [toComplexPairs]
          · simp [toComplexPairs]
          · exact absurd rfl (h a b rest)
    rw [hlen, show (volkConvert l scalar).length = l.length from List.length_map _ _]

theorem worker_publishes_blockSize_witness :
    (workerCycle 0 0 1 (workerBlockSize 1000000 4000000) true quietCycleEnv).published
      = some (min 1000000 (4000000 / 20)) :=
  (worker_publishes_blockSize 4000000 1000000 0 0 1 true quietCycleEnv
    (by decide) (by decide)).1

/-- Helper: from a non-running state with a selected device, start
succeeds whenever the context opens and both sub-devices resolve, ending
with running set and the worker thread spawned. -/
theorem start_succeeds (env : HwEnv) (s : ModuleState)
    (hrun : s.running = false) (hd : ¬ s.devDesc = "") (hu : ¬ s.uri = "")
    (hc : env.ctxOk = true) (hp : env.phyOk = true) (hv : env.devOk = true) :
    (start env s).1.running = true ∧ (start env s).1.threadSpawned = true := by
  unfold start
  rw [hrun, hc, hp, hv]
  simp [hd, hu]

/-- C2 counterexample: with every hardware call succeeding except the
creation of the iio DMA buffer, start from an idle state spawns the
worker thread and sets running before the failure is discovered inside
the worker; the worker then returns early leaving the RX channels
enabled and the context held, so the system is not back in Idle and
resources are held, contradicting the claim for the DMA-buffer-creation
failure case (main.cpp lines 372 to 373 and 606 to 612). -/
theorem start_worker_failure_counterexample :
    (startAndSetup bufFailEnv idleState).1.running = true ∧
    (startAndSetup bufFailEnv idleState).1.threadSpawned = true ∧
    (startAndSetup bufFailEnv idleState).1.chanIEnabled = true ∧
    (startAndSetup bufFailEnv idleState).1.ctxHeld = true ∧
    HwOp.spawnThread ∈ (startAndSetup bufFailEnv idleState).2 ∧
    HwOp.createBuffer 200000 ∈ (startAndSetup bufFailEnv idleState).2 := by
  decide

/-- C2 as amended: the failures that occur inside start itself, context
open failure, phy resolution failure and data sub-device resolution
failure, do return to Idle: running stays false, the context resource is
released, no channel is enabled, no buffer is created, the worker thread
is never spawned, and a subsequent start with working hardware succeeds.
The RX data-channel acquisition and DMA buffer creation failures are not
of this kind: they occur in the worker after the thread is spawned with
running already true (see the counterexample), so only the three
start-phase failures have the claimed rollback behavior (main.cpp lines
299 to 325). -/
theorem start_config_failure_returns_idle (env : HwEnv) (s : ModuleState)
    (hrun : s.running = false) (hctx : s.ctxHeld = false)
    (hth : s.threadSpawned = false)
    (hfail : env.ctxOk = false ∨ env.phyOk = false ∨ env.devOk = false) :
    (startAndSetup env s).1.running = false ∧
    (startAndSetup env s).1.ctxHeld = false ∧
    (startAndSetup env s).1.threadSpawned = false ∧
    (startAndSetup env s).1.chanIEnabled = s.chanIEnabled ∧
    (startAndSetup env s).1.bufCreated = s.bufCreated ∧
    HwOp.spawnThread ∉ (startAndSetup env s).2 ∧
    (startAndSetup env s).1.devDesc = s.devDesc ∧
    (startAndSetup env s).1.uri = s.uri ∧
    (∀ env2 : HwEnv, env2.ctxOk = true → env2.phyOk = true → env2.devOk = true →
      ¬ s.devDesc = "" → ¬ s.uri = "" →
      (start env2 (startAndSetup env s).1).1.running = true) := by
  have hmain : (startAndSetup env s).1.running = false ∧
      (startAndSetup env s).1.ctxHeld = false ∧
      (startAndSetup env s).1.threadSpawned = false ∧
      (startAndSetup env s).1.chanIEnabled = s.chanIEnabled ∧
      (startAndSetup env s).1.bufCreated = s.bufCreated ∧
      HwOp.spawnThread ∉ (startAndSetup env s).2 ∧
      (startAndSetup env s).1.devDesc = s.devDesc ∧
      (startAndSetup env s).1.uri = s.uri := by
    rcases hfail with h | h | h <;>
      by_cases hde : s.devDesc = "" ∨ s.uri = "" <;>
        by_cases hc : env.ctxOk = false <;>
          by_cases hp : env.phyOk = false <;>
            simp_all [startAndSetup, start]
  obtain ⟨h1, h2, h3, h4, h5, h6, h7, h8⟩ := hmain
  refine ⟨h1, h2, h3, h4, h5, h6, h7, h8, ?_⟩
  intro env2 e1 e2 e3 hd hu
  exact (start_succeeds env2 _ h1 (by rw [h7]; exact hd) (by rw [h8]; exact hu)
    e1 e2 e3).1

theorem start_config_failure_witness :
    (startAndSetup { goodEnv with ctxOk := false } idleState).1.running = false ∧
    (startAndSetup { goodEnv with ctxOk := false } idleState).1.ctxHeld = false ∧
    (startAndSetup { goodEnv with ctxOk := false } idleState).1.threadSpawned = false ∧
    HwOp.spawnThread ∉ (startAndSetup { goodEnv with ctxOk := false } idleState).2 ∧
    (start goodEnv (startAndSetup { goodEnv with ctxOk := false } idleState).1).1.running
      = true := by
  have h := start_config_failure_returns_idle { goodEnv with ctxOk := false }
    idleState rfl rfl rfl (Or.inl rfl)
  exact ⟨h.1, h.2.1, h.2.2.1, h.2.2.2.2.2.1,
    h.2.2.2.2.2.2.2.2 goodEnv rfl rfl rfl (by decide) (by decide)⟩

end PlutoSDR
